import Mathlib

/-!
A shallow embedding of the `EmbeddingIndex` client of this repository
(`src/src/nludb/embedding_index.py`) together with a model of its
collaborators (the generic API-calling base `ApiBase` and the remote
service), and theorems about the embedded operations.

Modelling conventions:
* Python's dynamically typed metadata values (`Union[int, float, bool, str,
  List, Dict]`) are embedded as the inductive `PyVal`; numbers are modelled
  by `Int`.
* Each client method is translated into two Lean functions: a `_call`
  builder that produces the `PostCall` record handed to `ApiBase.post`
  (route, request object, expected response shape, asynchronous flag and
  workspace selectors, exactly as at the source call site), and a function
  of the method's own name that performs the call through the handle's
  transport.  Methods are translated in state-passing style: each returns
  the handle's state after the call alongside the result, mirroring that
  the Python method bodies contain no assignment to `self`.
* `ApiBase.post` and the remote service are collaborators whose code is not
  part of this repository; they are modelled from the spec where a claim
  needs their behaviour (`Transport`, `serverHandle`).  Failures are
  `RemoteError` values in an `Except`, mirroring the raised
  `RemoteRequestError` of the spec's error design.
-/

/-- A dynamically typed Python value, as used for the `metadata` arguments
(`Union[int, float, bool, str, List, Dict]`); numeric values are modelled
by `Int`. -/
inductive PyVal where
  | vNone
  | vInt (n : Int)
  | vBool (b : Bool)
  | vStr (s : String)
  | vList (xs : List PyVal)
  | vDict (kvs : List (String × PyVal))

mutual

/-- A JSON serialization of a `PyVal`, modelling Python's `json.dumps`
(string escaping is not modelled). -/
def jsonDumps : PyVal → String
  | PyVal.vNone => "null"
  | PyVal.vInt n => toString n
  | PyVal.vBool true => "true"
  | PyVal.vBool false => "false"
  | PyVal.vStr s => "\"" ++ s ++ "\""
  | PyVal.vList xs => "[" ++ jsonDumpsList xs ++ "]"
  | PyVal.vDict kvs => "\x7b" ++ jsonDumpsDict kvs ++ "\x7d"

/-- Comma-separated serialization of a JSON array's elements. -/
def jsonDumpsList : List PyVal → String
  | [] => ""
  | [x] => jsonDumps x
  | x :: y :: xs => jsonDumps x ++ ", " ++ jsonDumpsList (y :: xs)

/-- Comma-separated serialization of a JSON object's entries. -/
def jsonDumpsDict : List (String × PyVal) → String
  | [] => ""
  | [kv] => "\"" ++ kv.1 ++ "\": " ++ jsonDumps kv.2
  | kv :: kv2 :: kvs => "\"" ++ kv.1 ++ "\": " ++ jsonDumps kv.2 ++ ", " ++ jsonDumpsDict (kv2 :: kvs)

end

/-- True exactly on the structured metadata values (a mapping or a
sequence), the values Python's `isinstance(m, dict) or isinstance(m, list)`
test selects. -/
def isStructured : PyVal → Bool
  | PyVal.vList _ => true
  | PyVal.vDict _ => true
  | _ => false

/-- True exactly when an optional metadata value is a string. -/
def isStringMetadata : Option PyVal → Bool
  | some (PyVal.vStr _) => true
  | _ => false

/-- Modelled from the spec: `metadata_to_str` of the `nludb.types` module
(not under `src/`): a structured metadata value (mapping or sequence) is
serialized to a string encoding before inclusion in a request body; any
other value is passed through unchanged. -/
def metadata_to_str : Option PyVal → Option PyVal
  | some (PyVal.vList xs) => some (PyVal.vStr (jsonDumps (PyVal.vList xs)))
  | some (PyVal.vDict kvs) => some (PyVal.vStr (jsonDumps (PyVal.vDict kvs)))
  | m => m

/-- Modelled from the spec: `IndexItem` of the `nludb.types.embedding_index`
module (not under `src/`): a unit of insertable content, either raw text
(`value`) or a reference to an uploaded file/block/span, plus optional
external identity and metadata. -/
structure IndexItem where
  value : Option String := none
  fileId : Option String := none
  blockId : Option String := none
  spanId : Option String := none
  externalId : Option String := none
  externalType : Option String := none
  metadata : Option PyVal := none

/-- Modelled from the spec: `IndexItem.clone_for_insert` (not under `src/`):
the copy of an item prepared for transmission, with structured metadata
serialized to a string encoding. -/
def IndexItem.clone_for_insert (it : IndexItem) : IndexItem :=
  { it with metadata := metadata_to_str it.metadata }

/-- Request body of `embedding-index/insert` (`IndexInsertRequest`). -/
structure IndexInsertRequest where
  indexId : Option String
  value : Option String := none
  items : Option (List IndexItem) := none
  fileId : Option String := none
  blockType : Option String := none
  externalId : Option String := none
  externalType : Option String := none
  metadata : Option PyVal := none
  reindex : Bool := true

/-- Request body of `embedding-index/embed` (`IndexEmbedRequest`). -/
structure IndexEmbedRequest where
  indexId : Option String

/-- Request body of `embedding-index/snapshot/create` (`IndexSnapshotRequest`). -/
structure IndexSnapshotRequest where
  indexId : Option String

/-- Request body of `embedding-index/snapshot/list` (`ListSnapshotsRequest`). -/
structure ListSnapshotsRequest where
  indexId : Option String

/-- Request body of `embedding-index/listItems` (`ListItemsRequest`). -/
structure ListItemsRequest where
  indexId : Option String
  fileId : Option String := none
  blockId : Option String := none
  spanId : Option String := none

/-- Request body of `embedding-index/snapshot/delete` (`DeleteSnapshotsRequest`). -/
structure DeleteSnapshotsRequest where
  snapshotId : String

/-- Request body of `embedding-index/delete` (`IndexDeleteRequest`). -/
structure IndexDeleteRequest where
  indexId : Option String

/-- Request body of `embedding-index/search` (`IndexSearchRequest`). -/
structure IndexSearchRequest where
  indexId : Option String
  query : Option String := none
  queries : Option (List String) := none
  k : Nat := 1
  includeMetadata : Bool := false

/-- Request body of `embedding-index/create` (`IndexCreateRequest`). -/
structure IndexCreateRequest where
  name : String
  model : String
  upsert : Bool := true
  externalId : Option String := none
  externalType : Option String := none
  metadata : Option PyVal := none

/-- The request object of a `post` call, a sum over the request bodies. -/
inductive ApiRequest where
  | insertReq (r : IndexInsertRequest)
  | embedReq (r : IndexEmbedRequest)
  | snapshotCreateReq (r : IndexSnapshotRequest)
  | listSnapshotsReq (r : ListSnapshotsRequest)
  | listItemsReq (r : ListItemsRequest)
  | deleteSnapshotReq (r : DeleteSnapshotsRequest)
  | deleteReq (r : IndexDeleteRequest)
  | searchReq (r : IndexSearchRequest)
  | createReq (r : IndexCreateRequest)

/-- The metadata field of a request body, for requests that carry one. -/
def ApiRequest.metadataOf : ApiRequest → Option PyVal
  | ApiRequest.insertReq r => r.metadata
  | ApiRequest.createReq r => r.metadata
  | _ => none

/-- The response shape a `post` call declares through its `expect`
argument (`expect=None` when the call site passes no `expect`). -/
inductive Expect where
  | indexInsertResponse
  | indexEmbedRequest
  | indexEmbedResponse
  | indexSnapshotRequest
  | indexSnapshotResponse
  | listSnapshotsResponse
  | listItemsResponse
  | deleteSnapshotsResponse
  | indexDeleteResponse
  | indexSearchResponse
  | noExpect
  deriving DecidableEq

/-- The arguments of one `ApiBase.post` invocation, as assembled at a call
site of `embedding_index.py`. -/
structure PostCall where
  route : String
  req : ApiRequest
  expect : Expect
  asynchronous : Bool := false
  spaceId : Option String := none
  spaceHandle : Option String := none

/-- The single failure taxonomy of the spec: `RemoteRequestError`, carrying
an HTTP-like status and a message. -/
structure RemoteError where
  statusCode : Nat
  message : String
  deriving DecidableEq

/-- A handle to a long-running server-side operation. -/
structure AsyncTask where
  taskId : String

/-- The typed wrapper `ApiBase.post` returns: decoded data plus an optional
async task reference. -/
structure NludbResponse (α : Type) where
  data : α
  task : Option AsyncTask := none

/-- Acknowledgment body of `embedding-index/insert`, carrying the number of
items inserted. -/
structure IndexInsertResponse where
  itemCount : Nat

/-- Acknowledgment body of `embedding-index/embed`. -/
inductive IndexEmbedResponse where
  | ack

/-- Acknowledgment body of `embedding-index/snapshot/create`. -/
inductive IndexSnapshotResponse where
  | ack

/-- Body of `embedding-index/snapshot/list`: snapshot identifiers. -/
structure ListSnapshotsResponse where
  snapshots : List String

/-- A search hit: a (score, value, metadata) tuple; the relevance score is
modelled by `Int`. -/
structure SearchHit where
  score : Int
  value : String
  metadata : Option PyVal := none

/-- Body of `embedding-index/search`: the returned hits. -/
structure IndexSearchResponse where
  hits : List SearchHit

/-- Body of `embedding-index/listItems`: the matching items. -/
structure ListItemsResponse where
  items : List IndexItem

/-- Acknowledgment body of `embedding-index/snapshot/delete`. -/
inductive DeleteSnapshotsResponse where
  | ack

/-- Acknowledgment body of `embedding-index/delete`. -/
inductive IndexDeleteResponse where
  | ack

/-- A decoded successful `post` response, a sum over the response bodies;
`rawDict` is the undecoded dictionary returned when a call passes no
`expect` (its values are modelled as strings). -/
inductive ApiResponse where
  | insertResp (r : NludbResponse IndexInsertResponse)
  | embedResp (r : NludbResponse IndexEmbedResponse)
  | snapshotResp (r : NludbResponse IndexSnapshotResponse)
  | listSnapshotsResp (r : NludbResponse ListSnapshotsResponse)
  | listItemsResp (r : NludbResponse ListItemsResponse)
  | deleteSnapshotResp (r : NludbResponse DeleteSnapshotsResponse)
  | deleteResp (r : NludbResponse IndexDeleteResponse)
  | searchResp (r : NludbResponse IndexSearchResponse)
  | rawDict (d : List (String × String))

/-- Modelled from the spec: the capability `ApiBase.post` supplies (the
collaborator is not under `src/`): an authenticated call that either
returns a decoded response or fails with a `RemoteRequestError`. -/
def Transport : Type := PostCall → Except RemoteError ApiResponse

/-- Failure reported when a response cannot be decoded into the expected
shape. -/
def shapeError : RemoteError := { statusCode := 500, message := "Response shape mismatch" }

/-- The index handle: `EmbeddingIndex.__init__` stores the `ApiBase`
collaborator and the index's `id` and `name`.  The `id` is optional because
`create` stores `res.data.get("id", None)`. -/
structure EmbeddingIndex where
  nludb : Transport
  id : Option String
  name : String

/-- A batch element of `insert_many`: `Union[IndexItem, str]`, with `inl`
for the plain string case. -/
def ItemOrStr : Type := Sum String IndexItem

namespace EmbeddingIndex

/-- The `post` call `insert_file` assembles: the `isinstance(metadata, dict)
or isinstance(metadata, list)` test serializes structured metadata inline
before the request is built. -/
def insert_file_call (h : EmbeddingIndex) (fileId : String)
    (blockType externalId externalType : Option String) (metadata : Option PyVal)
    (reindex : Bool) (spaceId spaceHandle : Option String) : PostCall :=
  let metadata2 : Option PyVal :=
    match metadata with
    | some (PyVal.vDict kvs) => some (PyVal.vStr (jsonDumps (PyVal.vDict kvs)))
    | some (PyVal.vList xs) => some (PyVal.vStr (jsonDumps (PyVal.vList xs)))
    | m => m
  { route := "embedding-index/insert",
    req := ApiRequest.insertReq
      { indexId := h.id, fileId := some fileId, blockType := blockType,
        externalId := externalId, externalType := externalType,
        metadata := metadata2, reindex := reindex },
    expect := Expect.indexInsertResponse,
    spaceId := spaceId, spaceHandle := spaceHandle }

/-- `insert_file`: builds the request and posts it through `self.nludb`. -/
def insert_file (h : EmbeddingIndex) (fileId : String)
    (blockType externalId externalType : Option String) (metadata : Option PyVal)
    (reindex : Bool) (spaceId spaceHandle : Option String) :
    EmbeddingIndex × Except RemoteError ApiResponse :=
  (h, h.nludb (insert_file_call h fileId blockType externalId externalType metadata reindex spaceId spaceHandle))

/-- The normalization loop of `insert_many`: a plain string item becomes
`IndexItem(value=item)`, any other item is kept. -/
def normalizeItem : ItemOrStr → IndexItem
  | Sum.inl s => { value := some s }
  | Sum.inr it => it

/-- The `post` call `insert_many` assembles: plain strings are normalized
into items, and each item is cloned for insert. -/
def insert_many_call (h : EmbeddingIndex) (items : List ItemOrStr)
    (reindex : Bool) (spaceId spaceHandle : Option String) : PostCall :=
  let newItems : List IndexItem := items.map normalizeItem
  { route := "embedding-index/insert",
    req := ApiRequest.insertReq
      { indexId := h.id, value := none,
        items := some (newItems.map IndexItem.clone_for_insert),
        reindex := reindex },
    expect := Expect.indexInsertResponse,
    spaceId := spaceId, spaceHandle := spaceHandle }

/-- `insert_many`: builds the request and posts it through `self.nludb`. -/
def insert_many (h : EmbeddingIndex) (items : List ItemOrStr)
    (reindex : Bool) (spaceId spaceHandle : Option String) :
    EmbeddingIndex × Except RemoteError ApiResponse :=
  (h, h.nludb (insert_many_call h items reindex spaceId spaceHandle))

/-- The `post` call `insert` assembles: a single value, no items, metadata
passed through `metadata_to_str`. -/
def insert_call (h : EmbeddingIndex) (value : String)
    (externalId externalType : Option String) (metadata : Option PyVal)
    (reindex : Bool) (spaceId spaceHandle : Option String) : PostCall :=
  { route := "embedding-index/insert",
    req := ApiRequest.insertReq
      { indexId := h.id, value := some value, items := none,
        externalId := externalId, externalType := externalType,
        metadata := metadata_to_str metadata, reindex := reindex },
    expect := Expect.indexInsertResponse,
    spaceId := spaceId, spaceHandle := spaceHandle }

/-- `insert`: builds the request and posts it through `self.nludb`. -/
def insert (h : EmbeddingIndex) (value : String)
    (externalId externalType : Option String) (metadata : Option PyVal)
    (reindex : Bool) (spaceId spaceHandle : Option String) :
    EmbeddingIndex × Except RemoteError ApiResponse :=
  (h, h.nludb (insert_call h value externalId externalType metadata reindex spaceId spaceHandle))

/-- The `post` call `embed` assembles.  The source passes
`expect=IndexEmbedRequest` (the request class) and `asynchronous=True`. -/
def embed_call (h : EmbeddingIndex) (spaceId spaceHandle : Option String) : PostCall :=
  { route := "embedding-index/embed",
    req := ApiRequest.embedReq { indexId := h.id },
    expect := Expect.indexEmbedRequest,
    asynchronous := true,
    spaceId := spaceId, spaceHandle := spaceHandle }

/-- `embed`: builds the request and posts it through `self.nludb`. -/
def embed (h : EmbeddingIndex) (spaceId spaceHandle : Option String) :
    EmbeddingIndex × Except RemoteError ApiResponse :=
  (h, h.nludb (embed_call h spaceId spaceHandle))

/-- The `post` call `create_snapshot` assembles.  The source passes
`expect=IndexSnapshotRequest` (the request class) and `asynchronous=True`. -/
def create_snapshot_call (h : EmbeddingIndex) (spaceId spaceHandle : Option String) : PostCall :=
  { route := "embedding-index/snapshot/create",
    req := ApiRequest.snapshotCreateReq { indexId := h.id },
    expect := Expect.indexSnapshotRequest,
    asynchronous := true,
    spaceId := spaceId, spaceHandle := spaceHandle }

/-- `create_snapshot`: builds the request and posts it through `self.nludb`. -/
def create_snapshot (h : EmbeddingIndex) (spaceId spaceHandle : Option String) :
    EmbeddingIndex × Except RemoteError ApiResponse :=
  (h, h.nludb (create_snapshot_call h spaceId spaceHandle))

/-- The `post` call `list_snapshots` assembles. -/
def list_snapshots_call (h : EmbeddingIndex) (spaceId spaceHandle : Option String) : PostCall :=
  { route := "embedding-index/snapshot/list",
    req := ApiRequest.listSnapshotsReq { indexId := h.id },
    expect := Expect.listSnapshotsResponse,
    spaceId := spaceId, spaceHandle := spaceHandle }

/-- `list_snapshots`: builds the request and posts it through `self.nludb`. -/
def list_snapshots (h : EmbeddingIndex) (spaceId spaceHandle : Option String) :
    EmbeddingIndex × Except RemoteError ApiResponse :=
  (h, h.nludb (list_snapshots_call h spaceId spaceHandle))

/-- The `post` call `list_items` assembles: exactly the provided optional
identifiers are placed in the request. -/
def list_items_call (h : EmbeddingIndex) (fileId blockId spanId : Option String)
    (spaceId spaceHandle : Option String) : PostCall :=
  { route := "embedding-index/listItems",
    req := ApiRequest.listItemsReq
      { indexId := h.id, fileId := fileId, blockId := blockId, spanId := spanId },
    expect := Expect.listItemsResponse,
    spaceId := spaceId, spaceHandle := spaceHandle }

/-- `list_items`: builds the request and posts it through `self.nludb`. -/
def list_items (h : EmbeddingIndex) (fileId blockId spanId : Option String)
    (spaceId spaceHandle : Option String) :
    EmbeddingIndex × Except RemoteError ApiResponse :=
  (h, h.nludb (list_items_call h fileId blockId spanId spaceId spaceHandle))

/-- The `post` call `delete_snapshot` assembles: the request carries only
the snapshot id. -/
def delete_snapshot_call (h : EmbeddingIndex) (snapshot_id : String)
    (spaceId spaceHandle : Option String) : PostCall :=
  { route := "embedding-index/snapshot/delete",
    req := ApiRequest.deleteSnapshotReq { snapshotId := snapshot_id },
    expect := Expect.deleteSnapshotsResponse,
    spaceId := spaceId, spaceHandle := spaceHandle }

/-- `delete_snapshot`: builds the request and posts it through `self.nludb`. -/
def delete_snapshot (h : EmbeddingIndex) (snapshot_id : String)
    (spaceId spaceHandle : Option String) :
    EmbeddingIndex × Except RemoteError ApiResponse :=
  (h, h.nludb (delete_snapshot_call h snapshot_id spaceId spaceHandle))

/-- The `post` call `delete` assembles. -/
def delete_call (h : EmbeddingIndex) (spaceId spaceHandle : Option String) : PostCall :=
  { route := "embedding-index/delete",
    req := ApiRequest.deleteReq { indexId := h.id },
    expect := Expect.indexDeleteResponse,
    spaceId := spaceId, spaceHandle := spaceHandle }

/-- `delete`: builds the request and posts it through `self.nludb`. -/
def delete (h : EmbeddingIndex) (spaceId spaceHandle : Option String) :
    EmbeddingIndex × Except RemoteError ApiResponse :=
  (h, h.nludb (delete_call h spaceId spaceHandle))

/-- The `post` call `search` assembles: `type(query) == list` dispatches a
list into the `queries` field and a plain string into the `query` field. -/
def search_call (h : EmbeddingIndex) (query : Sum String (List String))
    (k : Nat) (includeMetadata : Bool) (spaceId spaceHandle : Option String) : PostCall :=
  match query with
  | Sum.inr qs =>
    { route := "embedding-index/search",
      req := ApiRequest.searchReq
        { indexId := h.id, query := none, queries := some qs,
          k := k, includeMetadata := includeMetadata },
      expect := Expect.indexSearchResponse,
      spaceId := spaceId, spaceHandle := spaceHandle }
  | Sum.inl q =>
    { route := "embedding-index/search",
      req := ApiRequest.searchReq
        { indexId := h.id, query := some q, queries := none,
          k := k, includeMetadata := includeMetadata },
      expect := Expect.indexSearchResponse,
      spaceId := spaceId, spaceHandle := spaceHandle }

/-- The value `search` returns: either the typed response as posted back by
the transport, or (when `pd` is not `False`) a dataframe of
`(score, value)` rows with columns `Score` and `Value`. -/
inductive SearchOut where
  | resp (r : ApiResponse)
  | frame (rows : List (Int × String)) (columns : List String)

/-- `search`: builds the request, posts it, and either returns the typed
response unchanged (`pd is False`) or renders `ret.data.hits` as a
dataframe of `(hit.score, hit.value)` rows. -/
def search (h : EmbeddingIndex) (query : Sum String (List String))
    (k : Nat) (includeMetadata : Bool) (pd : Bool) (spaceId spaceHandle : Option String) :
    EmbeddingIndex × Except RemoteError SearchOut :=
  let ret := h.nludb (search_call h query k includeMetadata spaceId spaceHandle)
  (h, match ret with
      | Except.error e => Except.error e
      | Except.ok r =>
        if pd = false then Except.ok (SearchOut.resp r)
        else
          match r with
          | ApiResponse.searchResp sr =>
            Except.ok (SearchOut.frame
              (sr.data.hits.map (fun hit => (hit.score, hit.value)))
              ["Score", "Value"])
          | _ => Except.error shapeError)

/-- The `post` call the static `create` assembles: no `expect` argument is
passed, so the response is the raw dictionary. -/
def create_call (name model : String) (upsert : Bool)
    (externalId externalType : Option String) (metadata : Option PyVal)
    (spaceId spaceHandle : Option String) : PostCall :=
  { route := "embedding-index/create",
    req := ApiRequest.createReq
      { name := name, model := model, upsert := upsert,
        externalId := externalId, externalType := externalType,
        metadata := metadata },
    expect := Expect.noExpect,
    spaceId := spaceId, spaceHandle := spaceHandle }

/-- The static `create`: posts the creation request through the given
`ApiBase` and returns a handle built from `res.data.get("id", None)` and
the requested name (`req.name`). -/
def create (nludb : Transport) (name model : String) (upsert : Bool)
    (externalId externalType : Option String) (metadata : Option PyVal)
    (spaceId spaceHandle : Option String) : Except RemoteError EmbeddingIndex :=
  match nludb (create_call name model upsert externalId externalType metadata spaceId spaceHandle) with
  | Except.error e => Except.error e
  | Except.ok (ApiResponse.rawDict d) =>
    Except.ok { nludb := nludb, id := d.lookup "id", name := name }
  | Except.ok _ => Except.error shapeError

end EmbeddingIndex

/-- The id of a successfully created handle, `none` on failure. -/
def createdId : Except RemoteError EmbeddingIndex → Option String
  | Except.ok h => h.id
  | Except.error _ => none

/-- The name of a successfully created handle, `none` on failure. -/
def createdName : Except RemoteError EmbeddingIndex → Option String
  | Except.ok h => some h.name
  | Except.error _ => none

/-- Modelled from the spec: the server-side state of one index (a mocked
collaborator): its inserted items and its snapshots. -/
structure ServerIndexData where
  items : List IndexItem := []
  snapshots : List String := []

/-- Modelled from the spec: the remote service's state (a mocked
collaborator): the live indices, keyed by id. -/
structure ServerState where
  indices : List (String × ServerIndexData) := []

/-- The "not found" failure the mocked server reports for an operation
against a deleted or unknown resource. -/
def notFoundError : RemoteError := { statusCode := 404, message := "Not found" }

/-- Modelled from the spec: the items one `embedding-index/insert` request
denotes — the explicit item batch when present, otherwise a single item
assembled from the request's value/file reference, external identity and
metadata fields. -/
def itemsOfInsert (r : IndexInsertRequest) : List IndexItem :=
  match r.items with
  | some is => is
  | none =>
    [{ value := r.value, fileId := r.fileId, blockId := none, spanId := none,
       externalId := r.externalId, externalType := r.externalType,
       metadata := r.metadata }]

/-- Replaces the data stored under index id `i`. -/
def updateIndex (st : ServerState) (i : String) (d : ServerIndexData) : ServerState :=
  { indices := st.indices.map (fun p => if p.1 == i then (i, d) else p) }

/-- Removes the index stored under id `i` (and with it its items and
snapshots). -/
def removeIndex (st : ServerState) (i : String) : ServerState :=
  { indices := st.indices.filter (fun p => p.1 != i) }

/-- Modelled from the spec: whether an item passes one optional identifier
filter — no identifier accepts everything, a provided identifier requires
an exact match. -/
def matchOpt (want got : Option String) : Bool :=
  match want with
  | none => true
  | some f => got == some f

/-- Modelled from the spec: the `listItems` filter, a conjunction over any
provided identifiers. -/
def itemMatches (fid bid sid : Option String) (it : IndexItem) : Bool :=
  matchOpt fid it.fileId && matchOpt bid it.blockId && matchOpt sid it.spanId

/-- Descending relevance order on search hits: `a` before `b` when `b`'s
score is at most `a`'s. -/
def hitGE (a b : SearchHit) : Prop := b.score ≤ a.score

instance : DecidableRel hitGE := fun a b => inferInstanceAs (Decidable (b.score ≤ a.score))

instance : IsTotal SearchHit hitGE := ⟨fun a b => (le_total a.score b.score).symm⟩

instance : IsTrans SearchHit hitGE := ⟨fun _ _ _ h1 h2 => le_trans h2 h1⟩

/-- Modelled from the spec: the candidate hits of one query — one hit per
stored item carrying a raw text value, scored by the server's (opaque)
relevance function, with the item's metadata included only when
`includeMetadata` is set. -/
def candidateHits (score : String → String → Int) (items : List IndexItem)
    (q : String) (includeMetadata : Bool) : List SearchHit :=
  items.filterMap (fun it => it.value.map (fun v =>
    { score := score q v, value := v,
      metadata := if includeMetadata then it.metadata else none }))

/-- Modelled from the spec: the top-k hits of one query, the candidates
sorted by non-increasing score and truncated to `k`. -/
def topKHits (score : String → String → Int) (items : List IndexItem)
    (q : String) (k : Nat) (includeMetadata : Bool) : List SearchHit :=
  (List.insertionSort hitGE (candidateHits score items q includeMetadata)).take k

/-- The queries one `embedding-index/search` request denotes: the batch
when present, otherwise the single query. -/
def queriesOf (r : IndexSearchRequest) : List String :=
  match r.queries with
  | some qs => qs
  | none =>
    match r.query with
    | some q => [q]
    | none => []

/-- Modelled from the spec: one hit list per input query, in input order. -/
def serverSearchLists (score : String → String → Int) (items : List IndexItem)
    (qs : List String) (k : Nat) (includeMetadata : Bool) : List (List SearchHit) :=
  qs.map (fun q => topKHits score items q k includeMetadata)

/-- A fresh server-assigned index id. -/
def freshIndexId (st : ServerState) : String :=
  "index-" ++ toString st.indices.length

/-- Modelled from the spec: the remote service (a mocked collaborator).
Each route looks up the referenced resource, answers `notFoundError` when
it is missing, and otherwise performs the documented state change and
returns the documented response shape.  `score` is the server's opaque
relevance function. -/
def serverHandle (score : String → String → Int) (st : ServerState) (c : PostCall) :
    ServerState × Except RemoteError ApiResponse :=
  match c.req with
  | ApiRequest.insertReq r =>
    match r.indexId with
    | none => (st, Except.error notFoundError)
    | some i =>
      match st.indices.lookup i with
      | none => (st, Except.error notFoundError)
      | some d =>
        (updateIndex st i { d with items := d.items ++ itemsOfInsert r },
         Except.ok (ApiResponse.insertResp
           { data := { itemCount := (itemsOfInsert r).length } }))
  | ApiRequest.embedReq r =>
    match r.indexId with
    | none => (st, Except.error notFoundError)
    | some i =>
      match st.indices.lookup i with
      | none => (st, Except.error notFoundError)
      | some _ =>
        (st, Except.ok (ApiResponse.embedResp
          { data := IndexEmbedResponse.ack, task := some { taskId := "task-embed-" ++ i } }))
  | ApiRequest.snapshotCreateReq r =>
    match r.indexId with
    | none => (st, Except.error notFoundError)
    | some i =>
      match st.indices.lookup i with
      | none => (st, Except.error notFoundError)
      | some d =>
        (updateIndex st i { d with snapshots := d.snapshots ++ ["snapshot-" ++ i] },
         Except.ok (ApiResponse.snapshotResp
           { data := IndexSnapshotResponse.ack, task := some { taskId := "task-snapshot-" ++ i } }))
  | ApiRequest.listSnapshotsReq r =>
    match r.indexId with
    | none => (st, Except.error notFoundError)
    | some i =>
      match st.indices.lookup i with
      | none => (st, Except.error notFoundError)
      | some d =>
        (st, Except.ok (ApiResponse.listSnapshotsResp { data := { snapshots := d.snapshots } }))
  | ApiRequest.listItemsReq r =>
    match r.indexId with
    | none => (st, Except.error notFoundError)
    | some i =>
      match st.indices.lookup i with
      | none => (st, Except.error notFoundError)
      | some d =>
        (st, Except.ok (ApiResponse.listItemsResp
          { data := { items := d.items.filter (itemMatches r.fileId r.blockId r.spanId) } }))
  | ApiRequest.deleteSnapshotReq r =>
    match st.indices.find? (fun p => p.2.snapshots.contains r.snapshotId) with
    | none => (st, Except.error notFoundError)
    | some p =>
      (updateIndex st p.1 { p.2 with snapshots := p.2.snapshots.erase r.snapshotId },
       Except.ok (ApiResponse.deleteSnapshotResp { data := DeleteSnapshotsResponse.ack }))
  | ApiRequest.deleteReq r =>
    match r.indexId with
    | none => (st, Except.error notFoundError)
    | some i =>
      match st.indices.lookup i with
      | none => (st, Except.error notFoundError)
      | some _ =>
        (removeIndex st i, Except.ok (ApiResponse.deleteResp { data := IndexDeleteResponse.ack }))
  | ApiRequest.searchReq r =>
    match r.indexId with
    | none => (st, Except.error notFoundError)
    | some i =>
      match st.indices.lookup i with
      | none => (st, Except.error notFoundError)
      | some d =>
        (st, Except.ok (ApiResponse.searchResp
          { data := { hits := (serverSearchLists score d.items (queriesOf r) r.k r.includeMetadata).flatten } }))
  | ApiRequest.createReq _ =>
    let i := freshIndexId st
    ({ indices := (i, {}) :: st.indices },
     Except.ok (ApiResponse.rawDict [("id", i)]))

/-- A failure a transport may report. -/
def demoError : RemoteError := { statusCode := 503, message := "unavailable" }

/-- A transport that always fails with `demoError`. -/
def demoTransport : Transport := fun _ => Except.error demoError

/-- A concrete index handle over `demoTransport`. -/
def demoHandle : EmbeddingIndex :=
  { nludb := demoTransport, id := some "index-demo", name := "demo" }

/-- C1 counterexample: `create` places a structured metadata argument (a
mapping) in the request body unchanged — the request's metadata field is
the mapping itself, not a string encoding of it. -/
theorem c1_counterexample :
    (EmbeddingIndex.create_call "docs" "text-embedding" true none none
        (some (PyVal.vDict [("k", PyVal.vInt 1)])) none none).req.metadataOf
      = some (PyVal.vDict [("k", PyVal.vInt 1)])
  ∧ isStructured (PyVal.vDict [("k", PyVal.vInt 1)]) = true
  ∧ isStringMetadata (some (PyVal.vDict [("k", PyVal.vInt 1)])) = false :=
  ⟨rfl, rfl, rfl⟩

/-- C1 (amended): `insert` and `insert_file` serialize a structured
metadata argument (mapping or sequence) into its string encoding before
placing it in the request body; `create` places the metadata argument in
the request body unchanged. -/
theorem c1_metadata_serialization (h : EmbeddingIndex) (fileId value name model : String)
    (blockType externalId externalType spaceId spaceHandle : Option String)
    (upsert reindex : Bool) (v : PyVal) (hv : isStructured v = true) :
    (EmbeddingIndex.insert_file_call h fileId blockType externalId externalType
        (some v) reindex spaceId spaceHandle).req.metadataOf
      = some (PyVal.vStr (jsonDumps v))
  ∧ (EmbeddingIndex.insert_call h value externalId externalType
        (some v) reindex spaceId spaceHandle).req.metadataOf
      = some (PyVal.vStr (jsonDumps v))
  ∧ (∀ m : Option PyVal,
      (EmbeddingIndex.create_call name model upsert externalId externalType
          m spaceId spaceHandle).req.metadataOf = m) := by
  cases v with
  | vNone => simp [isStructured] at hv
  | vInt n => simp [isStructured] at hv
  | vBool b => simp [isStructured] at hv
  | vStr s => simp [isStructured] at hv
  | vList xs => exact ⟨rfl, rfl, fun m => rfl⟩
  | vDict kvs => exact ⟨rfl, rfl, fun m => rfl⟩

/-- C1 witness: at the structured metadata value `[2]`, `insert` places the
string encoding in the request body. -/
theorem c1_witness :
    isStructured (PyVal.vList [PyVal.vInt 2]) = true
  ∧ (EmbeddingIndex.insert_call demoHandle "v" none none
        (some (PyVal.vList [PyVal.vInt 2])) true none none).req.metadataOf
      = some (PyVal.vStr (jsonDumps (PyVal.vList [PyVal.vInt 2]))) :=
  ⟨rfl,
   (c1_metadata_serialization demoHandle "f" "v" "docs" "text-embedding"
      none none none none none true true (PyVal.vList [PyVal.vInt 2]) rfl).2.1⟩

/-- C2: `embed` and `create_snapshot` issue their post calls with the
asynchronous flag set, but pass the request classes (`IndexEmbedRequest`,
`IndexSnapshotRequest`) as the expected response shape instead of the
declared response shapes (`IndexEmbedResponse`, `IndexSnapshotResponse`). -/
theorem c2_expect_shape_mismatch :
    (EmbeddingIndex.embed_call demoHandle none none).asynchronous = true
  ∧ (EmbeddingIndex.embed_call demoHandle none none).expect = Expect.indexEmbedRequest
  ∧ (EmbeddingIndex.create_snapshot_call demoHandle none none).asynchronous = true
  ∧ (EmbeddingIndex.create_snapshot_call demoHandle none none).expect = Expect.indexSnapshotRequest
  ∧ Expect.indexEmbedRequest ≠ Expect.indexEmbedResponse
  ∧ Expect.indexSnapshotRequest ≠ Expect.indexSnapshotResponse :=
  ⟨rfl, rfl, rfl, rfl, by decide, by decide⟩

/-- C9: no operation of the index handle changes the handle's local state —
each method returns with the handle's `nludb`, `id` and `name` fields
exactly as before the call, whatever the transport does. -/
theorem c9_methods_preserve_handle :
    ∀ (h : EmbeddingIndex) (fileId value snapshot_id : String)
      (blockType externalId externalType fid bid sid spaceId spaceHandle : Option String)
      (metadata : Option PyVal) (reindex pd includeMetadata : Bool)
      (items : List ItemOrStr) (query : Sum String (List String)) (k : Nat),
      (h.insert_file fileId blockType externalId externalType metadata reindex spaceId spaceHandle).1 = h
    ∧ (h.insert_many items reindex spaceId spaceHandle).1 = h
    ∧ (h.insert value externalId externalType metadata reindex spaceId spaceHandle).1 = h
    ∧ (h.embed spaceId spaceHandle).1 = h
    ∧ (h.create_snapshot spaceId spaceHandle).1 = h
    ∧ (h.list_snapshots spaceId spaceHandle).1 = h
    ∧ (h.list_items fid bid sid spaceId spaceHandle).1 = h
    ∧ (h.delete_snapshot snapshot_id spaceId spaceHandle).1 = h
    ∧ (h.delete spaceId spaceHandle).1 = h
    ∧ (h.search query k includeMetadata pd spaceId spaceHandle).1 = h :=
  fun _ _ _ _ _ _ _ _ _ _ _ _ _ _ _ _ _ _ _ =>
    ⟨rfl, rfl, rfl, rfl, rfl, rfl, rfl, rfl, rfl, rfl⟩

/-- C10: when `search` is called with `pd` truthy, the caller receives only
the `(score, value)` rows of the hits — metadata is discarded even when the
transport returned it, and the typed response wrapper (with its task
information) is not returned. -/
theorem c10_search_pd_truthy (h : EmbeddingIndex) (query : Sum String (List String))
    (k : Nat) (includeMetadata : Bool) (spaceId spaceHandle : Option String)
    (sr : NludbResponse IndexSearchResponse)
    (hres : h.nludb (EmbeddingIndex.search_call h query k includeMetadata spaceId spaceHandle)
      = Except.ok (ApiResponse.searchResp sr)) :
    (h.search query k includeMetadata true spaceId spaceHandle).2
      = Except.ok (EmbeddingIndex.SearchOut.frame
          (sr.data.hits.map (fun hit => (hit.score, hit.value)))
          ["Score", "Value"]) := by
  simp [EmbeddingIndex.search, hres]

/-- A transport that answers every call with one fixed search response
carrying a hit with metadata and a task reference. -/
def searchDemoTransport : Transport := fun _ =>
  Except.ok (ApiResponse.searchResp
    { data := { hits := [{ score := 5, value := "a", metadata := some (PyVal.vStr "m") }] },
      task := some { taskId := "task-1" } })

/-- A concrete index handle over `searchDemoTransport`. -/
def searchDemoHandle : EmbeddingIndex :=
  { nludb := searchDemoTransport, id := some "index-demo", name := "demo" }

/-- C10 witness: with a transport returning one hit of score 5, value "a"
and metadata "m" plus a task reference, `search` with `pd` truthy returns
exactly the dataframe row `(5, "a")`. -/
theorem c10_witness :
    (searchDemoHandle.search (Sum.inl "q") 1 true true none none).2
      = Except.ok (EmbeddingIndex.SearchOut.frame [(5, "a")] ["Score", "Value"]) :=
  c10_search_pd_truthy searchDemoHandle (Sum.inl "q") 1 true none none
    { data := { hits := [{ score := 5, value := "a", metadata := some (PyVal.vStr "m") }] },
      task := some { taskId := "task-1" } } rfl

/-- C7: a transport failure (the `RemoteRequestError` carrying the server's
status and message) propagates unchanged through every operation of the
index handle — no operation catches, transforms or locally recovers from
it. -/
theorem c7_failures_propagate (h : EmbeddingIndex) (e : RemoteError) (t : Transport)
    (fileId value snapshot_id name model : String)
    (blockType externalId externalType fid bid sid spaceId spaceHandle : Option String)
    (metadata : Option PyVal) (reindex upsert includeMetadata pd : Bool)
    (items : List ItemOrStr) (query : Sum String (List String)) (k : Nat) :
    (h.nludb (EmbeddingIndex.insert_file_call h fileId blockType externalId externalType metadata reindex spaceId spaceHandle) = Except.error e →
      (h.insert_file fileId blockType externalId externalType metadata reindex spaceId spaceHandle).2 = Except.error e)
  ∧ (h.nludb (EmbeddingIndex.insert_many_call h items reindex spaceId spaceHandle) = Except.error e →
      (h.insert_many items reindex spaceId spaceHandle).2 = Except.error e)
  ∧ (h.nludb (EmbeddingIndex.insert_call h value externalId externalType metadata reindex spaceId spaceHandle) = Except.error e →
      (h.insert value externalId externalType metadata reindex spaceId spaceHandle).2 = Except.error e)
  ∧ (h.nludb (EmbeddingIndex.embed_call h spaceId spaceHandle) = Except.error e →
      (h.embed spaceId spaceHandle).2 = Except.error e)
  ∧ (h.nludb (EmbeddingIndex.create_snapshot_call h spaceId spaceHandle) = Except.error e →
      (h.create_snapshot spaceId spaceHandle).2 = Except.error e)
  ∧ (h.nludb (EmbeddingIndex.list_snapshots_call h spaceId spaceHandle) = Except.error e →
      (h.list_snapshots spaceId spaceHandle).2 = Except.error e)
  ∧ (h.nludb (EmbeddingIndex.list_items_call h fid bid sid spaceId spaceHandle) = Except.error e →
      (h.list_items fid bid sid spaceId spaceHandle).2 = Except.error e)
  ∧ (h.nludb (EmbeddingIndex.delete_snapshot_call h snapshot_id spaceId spaceHandle) = Except.error e →
      (h.delete_snapshot snapshot_id spaceId spaceHandle).2 = Except.error e)
  ∧ (h.nludb (EmbeddingIndex.delete_call h spaceId spaceHandle) = Except.error e →
      (h.delete spaceId spaceHandle).2 = Except.error e)
  ∧ (h.nludb (EmbeddingIndex.search_call h query k includeMetadata spaceId spaceHandle) = Except.error e →
      (h.search query k includeMetadata pd spaceId spaceHandle).2 = Except.error e)
  ∧ (t (EmbeddingIndex.create_call name model upsert externalId externalType metadata spaceId spaceHandle) = Except.error e →
      EmbeddingIndex.create t name model upsert externalId externalType metadata spaceId spaceHandle = Except.error e) := by
  refine ⟨?_, ?_, ?_, ?_, ?_, ?_, ?_, ?_, ?_, ?_, ?_⟩ <;> intro hres
  · simp [EmbeddingIndex.insert_file, hres]
  · simp [EmbeddingIndex.insert_many, hres]
  · simp [EmbeddingIndex.insert, hres]
  · simp [EmbeddingIndex.embed, hres]
  · simp [EmbeddingIndex.create_snapshot, hres]
  · simp [EmbeddingIndex.list_snapshots, hres]
  · simp [EmbeddingIndex.list_items, hres]
  · simp [EmbeddingIndex.delete_snapshot, hres]
  · simp [EmbeddingIndex.delete, hres]
  · simp [EmbeddingIndex.search, hres]
  · simp [EmbeddingIndex.create, hres]

/-- C7 witness: over a transport that always fails with status 503, every
operation of the handle surfaces exactly that failure. -/
theorem c7_witness :
    (demoHandle.insert_file "f" none none none none true none none).2 = Except.error demoError
  ∧ (demoHandle.insert_many [Sum.inl "a"] true none none).2 = Except.error demoError
  ∧ (demoHandle.insert "a" none none none true none none).2 = Except.error demoError
  ∧ (demoHandle.embed none none).2 = Except.error demoError
  ∧ (demoHandle.create_snapshot none none).2 = Except.error demoError
  ∧ (demoHandle.list_snapshots none none).2 = Except.error demoError
  ∧ (demoHandle.list_items none none none none none).2 = Except.error demoError
  ∧ (demoHandle.delete_snapshot "s" none none).2 = Except.error demoError
  ∧ (demoHandle.delete none none).2 = Except.error demoError
  ∧ (demoHandle.search (Sum.inl "q") 1 false true none none).2 = Except.error demoError
  ∧ EmbeddingIndex.create demoTransport "docs" "text-embedding" true none none none none none
      = Except.error demoError := by
  have hall := c7_failures_propagate demoHandle demoError demoTransport
    "f" "a" "s" "docs" "text-embedding" none none none none none none none none
    none true true false true [Sum.inl "a"] (Sum.inl "q") 1
  exact ⟨hall.1 rfl, hall.2.1 rfl, hall.2.2.1 rfl, hall.2.2.2.1 rfl, hall.2.2.2.2.1 rfl,
    hall.2.2.2.2.2.1 rfl, hall.2.2.2.2.2.2.1 rfl, hall.2.2.2.2.2.2.2.1 rfl,
    hall.2.2.2.2.2.2.2.2.1 rfl, hall.2.2.2.2.2.2.2.2.2.1 rfl, hall.2.2.2.2.2.2.2.2.2.2 rfl⟩

/-- C5: a successful `create` whose response dictionary carries an `id`
entry returns a handle carrying that server-assigned id and the requested
name. -/
theorem c5_create_returns_assigned_id (t : Transport) (name model : String) (upsert : Bool)
    (externalId externalType : Option String) (metadata : Option PyVal)
    (spaceId spaceHandle : Option String) (d : List (String × String)) (idS : String)
    (hres : t (EmbeddingIndex.create_call name model upsert externalId externalType metadata spaceId spaceHandle)
      = Except.ok (ApiResponse.rawDict d))
    (hid : d.lookup "id" = some idS) :
    createdId (EmbeddingIndex.create t name model upsert externalId externalType metadata spaceId spaceHandle) = some idS
  ∧ createdName (EmbeddingIndex.create t name model upsert externalId externalType metadata spaceId spaceHandle) = some name := by
  simp [EmbeddingIndex.create, hres, createdId, createdName, hid]

/-- A transport that answers every call with the raw creation response
dictionary assigning id `index-1`. -/
def createDemoTransport : Transport := fun _ =>
  Except.ok (ApiResponse.rawDict [("id", "index-1")])

/-- C5 witness: against a transport assigning id `index-1`, `create` named
`docs` returns a handle with id `index-1` and name `docs`. -/
theorem c5_witness :
    List.lookup "id" [("id", "index-1")] = some "index-1"
  ∧ createdId (EmbeddingIndex.create createDemoTransport "docs" "text-embedding" true none none none none none)
      = some "index-1"
  ∧ createdName (EmbeddingIndex.create createDemoTransport "docs" "text-embedding" true none none none none none)
      = some "docs" := by
  have hc := c5_create_returns_assigned_id createDemoTransport "docs" "text-embedding" true
    none none none none none [("id", "index-1")] "index-1" rfl rfl
  exact ⟨rfl, hc.1, hc.2⟩

/-- C3: inserting the single string `s` and inserting the one-item batch
`[s]` are equivalent — `insert_many` normalizes the plain string into an
item carrying `s` as its value, and the server's resulting state and
acknowledgment are the same for both calls. -/
theorem c3_insert_single_batch_equiv (score : String → String → Int) (st : ServerState)
    (h : EmbeddingIndex) (s : String) (spaceId spaceHandle : Option String) :
    (EmbeddingIndex.insert_many_call h [Sum.inl s] true spaceId spaceHandle).req
      = ApiRequest.insertReq
          { indexId := h.id, value := none, items := some [{ value := some s }], reindex := true }
  ∧ serverHandle score st (EmbeddingIndex.insert_call h s none none none true spaceId spaceHandle)
      = serverHandle score st (EmbeddingIndex.insert_many_call h [Sum.inl s] true spaceId spaceHandle) := by
  constructor
  · rfl
  · cases hid : h.id with
    | none => rfl
    | some i =>
      simp only [EmbeddingIndex.insert_call, EmbeddingIndex.insert_many_call, serverHandle, hid]
      cases hlk : st.indices.lookup i with
      | none => rfl
      | some d => rfl

/-- The truncated, insertion-sorted hit list of one query is sorted by
non-increasing score. -/
theorem sorted_topKHits (score : String → String → Int) (items : List IndexItem)
    (q : String) (k : Nat) (includeMetadata : Bool) :
    (topKHits score items q k includeMetadata).Sorted hitGE :=
  List.Pairwise.sublist (List.take_sublist k _)
    (List.sorted_insertionSort hitGE (candidateHits score items q includeMetadata))

/-- C4: the client dispatches a single string into the request's `query`
field and a list into the `queries` field; against a live index the server
answers a single query with its one hit list sorted by non-increasing
score, and answers a batch of N queries with exactly N hit lists, the n-th
computed from the n-th input query, each sorted by non-increasing score. -/
theorem c4_search_dispatch_and_order
    (h : EmbeddingIndex) (q : String) (qs : List String) (k : Nat) (includeMetadata : Bool)
    (spaceId spaceHandle : Option String)
    (score : String → String → Int) (st : ServerState) (i : String) (d : ServerIndexData)
    (hid : h.id = some i) (hlive : st.indices.lookup i = some d) :
    (EmbeddingIndex.search_call h (Sum.inl q) k includeMetadata spaceId spaceHandle).req
      = ApiRequest.searchReq
          { indexId := h.id, query := some q, queries := none, k := k, includeMetadata := includeMetadata }
  ∧ (EmbeddingIndex.search_call h (Sum.inr qs) k includeMetadata spaceId spaceHandle).req
      = ApiRequest.searchReq
          { indexId := h.id, query := none, queries := some qs, k := k, includeMetadata := includeMetadata }
  ∧ (serverHandle score st (EmbeddingIndex.search_call h (Sum.inl q) k includeMetadata spaceId spaceHandle)).2
      = Except.ok (ApiResponse.searchResp { data := { hits := topKHits score d.items q k includeMetadata } })
  ∧ (serverSearchLists score d.items qs k includeMetadata).length = qs.length
  ∧ (∀ (n : Nat) (hn : n < qs.length)
        (hn2 : n < (serverSearchLists score d.items qs k includeMetadata).length),
      (serverSearchLists score d.items qs k includeMetadata).get ⟨n, hn2⟩
        = topKHits score d.items (qs.get ⟨n, hn⟩) k includeMetadata)
  ∧ (∀ l, l ∈ serverSearchLists score d.items qs k includeMetadata → l.Sorted hitGE)
  ∧ (topKHits score d.items q k includeMetadata).Sorted hitGE := by
  refine ⟨rfl, rfl, ?_, ?_, ?_, ?_, sorted_topKHits score d.items q k includeMetadata⟩
  · simp [EmbeddingIndex.search_call, serverHandle, hid, hlive, queriesOf, serverSearchLists]
  · simp [serverSearchLists]
  · intro n hn hn2
    simp [serverSearchLists]
  · intro l hl
    rcases List.mem_map.mp hl with ⟨q2, _, hq2⟩
    exact hq2 ▸ sorted_topKHits score d.items q2 k includeMetadata

/-- A concrete relevance function for the witness scenarios. -/
def demoScore : String → String → Int := fun _ v => (v.length : Int)

/-- Concrete server-side data of one index holding two raw-text items. -/
def c4data : ServerIndexData :=
  { items := [{ value := some "aa" }, { value := some "b" }], snapshots := [] }

/-- A concrete one-index server state. -/
def c4state : ServerState := { indices := [("index-demo", c4data)] }

/-- C4 witness: on a concrete one-index server, the single-query dispatch,
the server's answer, the batch length and the sortedness of the answered
hit list are as stated. -/
theorem c4_witness :
    (EmbeddingIndex.search_call demoHandle (Sum.inl "q") 2 false none none).req
      = ApiRequest.searchReq
          { indexId := some "index-demo", query := some "q", queries := none, k := 2, includeMetadata := false }
  ∧ (serverHandle demoScore c4state (EmbeddingIndex.search_call demoHandle (Sum.inl "q") 2 false none none)).2
      = Except.ok (ApiResponse.searchResp { data := { hits := topKHits demoScore c4data.items "q" 2 false } })
  ∧ (serverSearchLists demoScore c4data.items ["q1", "q2"] 2 false).length = 2
  ∧ (topKHits demoScore c4data.items "q" 2 false).Sorted hitGE := by
  have hc := c4_search_dispatch_and_order demoHandle "q" ["q1", "q2"] 2 false none none
    demoScore c4state "index-demo" c4data rfl rfl
  exact ⟨hc.1, hc.2.2.1, hc.2.2.2.1, hc.2.2.2.2.2.2⟩

/-- Looking up a key in an association list from which every entry with
that key has been filtered out finds nothing. -/
theorem lookup_filter_ne (l : List (String × ServerIndexData)) (i : String) :
    (l.filter (fun p => p.1 != i)).lookup i = none := by
  induction l with
  | nil => rfl
  | cons a t ih =>
    obtain ⟨k, v⟩ := a
    by_cases hk : k = i
    · subst hk
      simpa [List.filter_cons] using ih
    · have hik : (i == k) = false := beq_eq_false_iff_ne.mpr (Ne.symm hk)
      simp [List.filter_cons, hk, List.lookup, hik, ih]

/-- After an index is removed, looking its id up in the server state finds
nothing. -/
theorem lookup_removeIndex (st : ServerState) (i : String) :
    (removeIndex st i).indices.lookup i = none :=
  lookup_filter_ne st.indices i

/-- After an index is removed, no remaining index owns a snapshot that only
that index owned. -/
theorem find?_snapshot_removeIndex (st : ServerState) (i sid : String)
    (hsnap : ∀ p ∈ st.indices, sid ∈ p.2.snapshots → p.1 = i) :
    (removeIndex st i).indices.find? (fun p => p.2.snapshots.contains sid) = none := by
  rw [List.find?_eq_none]
  intro x hx hcont
  rcases List.mem_filter.mp hx with ⟨hmem, hcond⟩
  have hxi : x.1 ≠ i := by simpa using hcond
  have hsid : sid ∈ x.2.snapshots := by simpa using hcont
  exact hxi (hsnap x hmem hsid)

/-- The server state after the handle's `delete` call is processed. -/
def afterDelete (score : String → String → Int) (st : ServerState) (h : EmbeddingIndex) :
    ServerState :=
  (serverHandle score st (EmbeddingIndex.delete_call h none none)).1

/-- C6: deleting a live index succeeds, and afterwards every operation
invoked through the same handle — insert_file, insert_many, insert, embed,
create_snapshot, list_snapshots, list_items, delete_snapshot of a snapshot
only this index owned, delete, and search — surfaces the server's
"not found" failure. -/
theorem c6_operations_after_delete_not_found
    (score : String → String → Int) (st : ServerState) (h : EmbeddingIndex)
    (i : String) (d : ServerIndexData) (sid : String)
    (hid : h.id = some i) (hlive : st.indices.lookup i = some d)
    (hsnap : ∀ p ∈ st.indices, sid ∈ p.2.snapshots → p.1 = i) :
    (serverHandle score st (EmbeddingIndex.delete_call h none none)).2
      = Except.ok (ApiResponse.deleteResp { data := IndexDeleteResponse.ack })
  ∧ (∀ fileId blockType externalId externalType metadata reindex spaceId spaceHandle,
      (serverHandle score (afterDelete score st h)
        (EmbeddingIndex.insert_file_call h fileId blockType externalId externalType metadata reindex spaceId spaceHandle)).2
        = Except.error notFoundError)
  ∧ (∀ items reindex spaceId spaceHandle,
      (serverHandle score (afterDelete score st h)
        (EmbeddingIndex.insert_many_call h items reindex spaceId spaceHandle)).2
        = Except.error notFoundError)
  ∧ (∀ value externalId externalType metadata reindex spaceId spaceHandle,
      (serverHandle score (afterDelete score st h)
        (EmbeddingIndex.insert_call h value externalId externalType metadata reindex spaceId spaceHandle)).2
        = Except.error notFoundError)
  ∧ (∀ spaceId spaceHandle,
      (serverHandle score (afterDelete score st h)
        (EmbeddingIndex.embed_call h spaceId spaceHandle)).2 = Except.error notFoundError)
  ∧ (∀ spaceId spaceHandle,
      (serverHandle score (afterDelete score st h)
        (EmbeddingIndex.create_snapshot_call h spaceId spaceHandle)).2 = Except.error notFoundError)
  ∧ (∀ spaceId spaceHandle,
      (serverHandle score (afterDelete score st h)
        (EmbeddingIndex.list_snapshots_call h spaceId spaceHandle)).2 = Except.error notFoundError)
  ∧ (∀ fid bid spanId spaceId spaceHandle,
      (serverHandle score (afterDelete score st h)
        (EmbeddingIndex.list_items_call h fid bid spanId spaceId spaceHandle)).2 = Except.error notFoundError)
  ∧ (∀ spaceId spaceHandle,
      (serverHandle score (afterDelete score st h)
        (EmbeddingIndex.delete_snapshot_call h sid spaceId spaceHandle)).2 = Except.error notFoundError)
  ∧ (∀ spaceId spaceHandle,
      (serverHandle score (afterDelete score st h)
        (EmbeddingIndex.delete_call h spaceId spaceHandle)).2 = Except.error notFoundError)
  ∧ (∀ query k includeMetadata spaceId spaceHandle,
      (serverHandle score (afterDelete score st h)
        (EmbeddingIndex.search_call h query k includeMetadata spaceId spaceHandle)).2
        = Except.error notFoundError) := by
  have hst' : afterDelete score st h = removeIndex st i := by
    simp [afterDelete, EmbeddingIndex.delete_call, serverHandle, hid, hlive]
  refine ⟨?_, ?_, ?_, ?_, ?_, ?_, ?_, ?_, ?_, ?_, ?_⟩
  · simp [EmbeddingIndex.delete_call, serverHandle, hid, hlive]
  · intro fileId blockType externalId externalType metadata reindex spaceId spaceHandle
    rw [hst']
    simp [EmbeddingIndex.insert_file_call, serverHandle, hid, lookup_removeIndex]
  · intro items reindex spaceId spaceHandle
    rw [hst']
    simp [EmbeddingIndex.insert_many_call, serverHandle, hid, lookup_removeIndex]
  · intro value externalId externalType metadata reindex spaceId spaceHandle
    rw [hst']
    simp [EmbeddingIndex.insert_call, serverHandle, hid, lookup_removeIndex]
  · intro spaceId spaceHandle
    rw [hst']
    simp [EmbeddingIndex.embed_call, serverHandle, hid, lookup_removeIndex]
  · intro spaceId spaceHandle
    rw [hst']
    simp [EmbeddingIndex.create_snapshot_call, serverHandle, hid, lookup_removeIndex]
  · intro spaceId spaceHandle
    rw [hst']
    simp [EmbeddingIndex.list_snapshots_call, serverHandle, hid, lookup_removeIndex]
  · intro fid bid spanId spaceId spaceHandle
    rw [hst']
    simp [EmbeddingIndex.list_items_call, serverHandle, hid, lookup_removeIndex]
  · intro spaceId spaceHandle
    rw [hst']
    simp only [EmbeddingIndex.delete_snapshot_call, serverHandle]
    rw [find?_snapshot_removeIndex st i sid hsnap]
  · intro spaceId spaceHandle
    rw [hst']
    simp [EmbeddingIndex.delete_call, serverHandle, hid, lookup_removeIndex]
  · intro query k includeMetadata spaceId spaceHandle
    rw [hst']
    cases query <;>
      simp [EmbeddingIndex.search_call, serverHandle, hid, lookup_removeIndex]

/-- Concrete server-side data of one index owning one snapshot. -/
def c6data : ServerIndexData := { items := [], snapshots := ["snap-1"] }

/-- A concrete one-index server state for the deletion scenario. -/
def c6state : ServerState := { indices := [("index-demo", c6data)] }

/-- C6 witness: on a concrete one-index server, deleting the index
succeeds, and a subsequent insert, snapshot deletion and search through the
same handle all surface the "not found" failure. -/
theorem c6_witness :
    (serverHandle demoScore c6state (EmbeddingIndex.delete_call demoHandle none none)).2
      = Except.ok (ApiResponse.deleteResp { data := IndexDeleteResponse.ack })
  ∧ (serverHandle demoScore (afterDelete demoScore c6state demoHandle)
      (EmbeddingIndex.insert_call demoHandle "a" none none none true none none)).2
      = Except.error notFoundError
  ∧ (serverHandle demoScore (afterDelete demoScore c6state demoHandle)
      (EmbeddingIndex.delete_snapshot_call demoHandle "snap-1" none none)).2
      = Except.error notFoundError
  ∧ (serverHandle demoScore (afterDelete demoScore c6state demoHandle)
      (EmbeddingIndex.search_call demoHandle (Sum.inl "q") 1 false none none)).2
      = Except.error notFoundError := by
  have hc := c6_operations_after_delete_not_found demoScore c6state demoHandle
    "index-demo" c6data "snap-1" rfl rfl
    (by intro p hp hs; rcases List.mem_singleton.mp hp with rfl; rfl)
  exact ⟨hc.1, hc.2.2.2.1 "a" none none none true none none,
    hc.2.2.2.2.2.2.2.2.1 none none,
    hc.2.2.2.2.2.2.2.2.2.2 (Sum.inl "q") 1 false none none⟩

/-- C8: `list_items` places exactly the provided optional identifiers in
the request, against a live index the server answers with the items passing
the conjunctive filter, and every answered item matches all of the provided
identifiers. -/
theorem c8_list_items_filter
    (h : EmbeddingIndex) (fid bid sid spaceId spaceHandle : Option String)
    (score : String → String → Int) (st : ServerState) (i : String) (d : ServerIndexData)
    (hid : h.id = some i) (hlive : st.indices.lookup i = some d) :
    (EmbeddingIndex.list_items_call h fid bid sid spaceId spaceHandle).req
      = ApiRequest.listItemsReq { indexId := h.id, fileId := fid, blockId := bid, spanId := sid }
  ∧ (serverHandle score st (EmbeddingIndex.list_items_call h fid bid sid spaceId spaceHandle)).2
      = Except.ok (ApiResponse.listItemsResp
          { data := { items := d.items.filter (itemMatches fid bid sid) } })
  ∧ ∀ it ∈ d.items.filter (itemMatches fid bid sid),
      (∀ f, fid = some f → it.fileId = some f)
    ∧ (∀ b, bid = some b → it.blockId = some b)
    ∧ (∀ s, sid = some s → it.spanId = some s) := by
  refine ⟨rfl, ?_, ?_⟩
  · simp [EmbeddingIndex.list_items_call, serverHandle, hid, hlive]
  · intro it hit
    rcases List.mem_filter.mp hit with ⟨_, hcond⟩
    refine ⟨fun f hf => ?_, fun b hb => ?_, fun s hs => ?_⟩
    · subst hf
      simp [itemMatches, matchOpt] at hcond
      exact hcond.1.1
    · subst hb
      simp [itemMatches, matchOpt] at hcond
      exact hcond.1.2
    · subst hs
      simp [itemMatches, matchOpt] at hcond
      exact hcond.2

/-- A concrete item referencing file `f1`. -/
def c8item : IndexItem := { value := some "x", fileId := some "f1" }

/-- Concrete server-side data of one index holding items of two files. -/
def c8data : ServerIndexData :=
  { items := [c8item, { value := some "y", fileId := some "f2" }], snapshots := [] }

/-- A concrete one-index server state for the item-listing scenario. -/
def c8state : ServerState := { indices := [("index-demo", c8data)] }

/-- C8 witness: filtering by file `f1` on a concrete two-file server sends
exactly that identifier, answers with the filtered items, and the answered
item indeed references file `f1`. -/
theorem c8_witness :
    (EmbeddingIndex.list_items_call demoHandle (some "f1") none none none none).req
      = ApiRequest.listItemsReq
          { indexId := some "index-demo", fileId := some "f1", blockId := none, spanId := none }
  ∧ (serverHandle demoScore c8state (EmbeddingIndex.list_items_call demoHandle (some "f1") none none none none)).2
      = Except.ok (ApiResponse.listItemsResp
          { data := { items := c8data.items.filter (itemMatches (some "f1") none none) } })
  ∧ c8item.fileId = some "f1" := by
  have hc := c8_list_items_filter demoHandle (some "f1") none none none none
    demoScore c8state "index-demo" c8data rfl rfl
  have hmem : c8item ∈ c8data.items.filter (itemMatches (some "f1") none none) :=
    List.Mem.head _
  exact ⟨hc.1, hc.2.1, (hc.2.2 c8item hmem).1 "f1" rfl⟩
